import Mathlib

/-!
Verification of the local-planner core of `neo_mpc_planner2` against its
specification.  The definitions below are a shallow embedding of
`src/neo_mpc_planner2-humble/src/NeoMpcPlanner.cpp`
(class `neo_mpc_planner::NeoMpcPlanner`).

Modelling conventions:

* A pose carries its planar position `(x, y)` and the yaw angle already
  extracted from its quaternion: `createYawFromQuat` in the source is the
  tf2 roll/pitch/yaw conversion of an orientation quaternion, so orientations
  are represented here directly by their yaw.
* `double` arithmetic is modelled over `ℚ`.  Comparisons involving
  `hypot` / `euclidean_distance` (both equal to `√(Δx² + Δy²)`) are decided
  exactly on squared distances: `√s ≥ d ↔ d ≤ 0 ∨ d² ≤ s` and
  `√s ≤ t ↔ 0 ≤ t ∧ s ≤ t²`, with `s ≥ 0`.
* The tf2 transform of the robot pose into the plan's frame
  (`transformPose` in the source) is an external service; it enters the
  embedding as an `Option Pose` input, `none` modelling transform failure.
  The reprojection of window poses into the robot's base frame is an
  external rigid transform, passed as a function `toLocal`.
* `max_transform_dist` is computed by the source from the external costmap
  (`max(size_x_cells, size_y_cells) * resolution / 2`); the embedding takes
  the resulting value as a parameter.
* Thrown `nav2_core::PlannerException`s are modelled by `Except` values
  tagged with the error kind of the throw site.  C++ member writes persist
  across a throw, so the error value also carries the member state as
  mutated up to the throw point.
* Diagnostic publishers (`global_path_pub_`, `carrot_pub_`) are
  fire-and-forget side channels and are not modelled.
-/

namespace NeoMpc

/-- A planar pose: position `(x, y)` and yaw (see module conventions). -/
structure Pose where
  x : ℚ
  y : ℚ
  yaw : ℚ
deriving DecidableEq, Repr

/-- A planar twist (`geometry_msgs::msg::Twist`): linear x/y and angular z. -/
structure Twist where
  vx : ℚ
  vy : ℚ
  wz : ℚ
deriving DecidableEq, Repr

/-- Squared planar Euclidean distance between two poses.
`nav2_util::geometry_utils::euclidean_distance` is `hypot(Δx, Δy)`; all its
uses in the source are comparisons, decided here on the square. -/
def sqDist (a b : Pose) : ℚ :=
  (a.x - b.x) ^ 2 + (a.y - b.y) ^ 2

/-- `euclidean_distance a b ≤ t`, decided exactly on rationals:
`√s ≤ t ↔ 0 ≤ t ∧ s ≤ t²` (since `√s ≥ 0`). -/
def distLE (a b : Pose) (t : ℚ) : Bool :=
  decide (0 ≤ t) && decide (sqDist a b ≤ t ^ 2)

/-- `hypot p.x p.y ≥ d` (distance of a local-frame pose from the robot
origin), decided exactly: `√s ≥ d ↔ d ≤ 0 ∨ d² ≤ s`. -/
def normGE (p : Pose) (d : ℚ) : Bool :=
  decide (d ≤ 0) || decide (d ^ 2 ≤ p.x ^ 2 + p.y ^ 2)

/-- Index-returning port of `nav2_util::geometry_utils::min_by` (the scan
behind `transformation_begin`): linear scan keeping the first strictly
smaller value, so ties are broken by first occurrence.  `i` is the index of
the head of `l` in the original list, `best` the index of the incumbent
minimum and `bv` its value. -/
def argminAux (f : Pose → ℚ) : List Pose → Nat → Nat → ℚ → Nat
  | [], _, best, _ => best
  | q :: qs, i, best, bv =>
    if f q < bv then argminAux f qs (i + 1) i (f q)
    else argminAux f qs (i + 1) best bv

/-- Error kinds of the `nav2_core::PlannerException` throw sites:
`emptyPlan` = "Received plan with zero length",
`transformUnavailable` = "Unable to transform robot pose into global plan's frame",
`emptyWindow` = "Resulting plan has 0 poses in it.",
`collisionDetected` = "MPC detected collision!". -/
inductive PlannerError where
  | emptyPlan
  | transformUnavailable
  | emptyWindow
  | collisionDetected
deriving DecidableEq, Repr

/-- The mutable member state of a `NeoMpcPlanner` instance that the modelled
functions read or write: the stored plan, the stored goal pose, the
`slow_down_` regime flag, the `closer_to_goal` flag and the three lookahead
configuration values. -/
structure State where
  global_plan : List Pose
  goal_pose : Pose
  slow_down : Bool
  closer_to_goal : Bool
  lookahead_dist_min : ℚ
  lookahead_dist_max : ℚ
  lookahead_dist_close_to_goal : ℚ
deriving DecidableEq, Repr

/-- `NeoMpcPlanner::transformGlobalPlan` (lines 66-135).  Throws on empty
plan, then on robot-pose transform failure; finds the closest plan pose
(`min_by`, ties to first occurrence), recomputes `closer_to_goal` against the
plan's final pose, takes from the closest pose the maximal contiguous run
within `max_transform_dist` (the `find_if` end iterator), reprojects it to
the base frame, erases the consumed prefix of the stored plan, and finally
throws if the resulting window is empty. -/
def transformGlobalPlan (toLocal : Pose → Pose) (maxTransformDist : ℚ)
    (robotPoseInPlanFrame : Option Pose) (s : State) :
    Except (PlannerError × State) (List Pose × State) :=
  match s.global_plan with
  | [] => .error (.emptyPlan, s)
  | p :: ps =>
    match robotPoseInPlanFrame with
    | none => .error (.transformUnavailable, s)
    | some robot =>
      let trimIdx := argminAux (sqDist robot) ps 1 0 (sqDist robot p)
      let finalPose := (p :: ps).getLast (List.cons_ne_nil p ps)
      let closer := distLE robot finalPose s.lookahead_dist_close_to_goal
      let rest := (p :: ps).drop trimIdx
      let window := rest.takeWhile (fun q => distLE robot q maxTransformDist)
      let transformed := window.map toLocal
      let s1 : State := { s with closer_to_goal := closer, global_plan := rest }
      if transformed.isEmpty then .error (.emptyWindow, s1)
      else .ok (transformed, s1)

/-- `NeoMpcPlanner::getLookAheadDistance` (lines 157-171).  The `speed`
argument is taken but unused in the source. -/
def getLookAheadDistance (s : State) (_speed : Twist) : ℚ :=
  let lookahead_dist := s.lookahead_dist_min
  if !s.slow_down || s.closer_to_goal then
    if s.closer_to_goal then s.lookahead_dist_close_to_goal
    else s.lookahead_dist_max
  else lookahead_dist

/-- `NeoMpcPlanner::getLookAheadPoint` (lines 173-189): first pose at
distance `≥ lookahead_dist` from the robot origin, else the last pose.
`std::prev(end())` on an empty vector is undefined; the empty case is
modelled by `none` (the caller guarantees non-emptiness). -/
def getLookAheadPoint (lookahead_dist : ℚ) (transformed_plan : List Pose) :
    Option Pose :=
  match transformed_plan.find? (fun ps => normGE ps lookahead_dist) with
  | some p => some p
  | none => transformed_plan.getLast?

/-- The `slow_down_` update block of `computeVelocityCommands`
(lines 221-232), as a function of the yaw of the first carrot pose, the yaw
of the re-probed pose (`check_pose_up`) and the footprint cost.  The block
only writes `slow_down_`, never reads it. -/
def updateSlowDown (carrotYaw checkYaw footprintCost : ℚ) : Bool :=
  if |carrotYaw| < 1 then
    if |checkYaw| > 1 ∧ footprintCost > 200 then true else false
  else if |carrotYaw| ≥ 1 ∧ footprintCost > 200 then true
  else false

/-- The request assembled for the external `neo_srvs2::srv::Optimizer`
service (lines 240-246). -/
structure OptimizerRequest where
  current_vel : Twist
  carrot_pose : Pose
  goal_pose : Pose
  current_pose : Pose
  switch_opt : Bool
  control_interval : ℚ
deriving DecidableEq, Repr

/-- `NeoMpcPlanner::computeVelocityCommands` (lines 202-255), up to the
dispatch of the optimizer request: a successful tick yields the request it
sends (the returned velocity command is the external service's answer to
it); a failed tick yields the error kind and the member state as mutated up
to the throw.  `footprintCost` is the value returned by the external
`collision_checker_->footprintCostAtPose` query for the current pose; the
re-probe `check_pose_up` repeats `getLookAheadPoint` with the same
arguments as the first carrot selection, exactly as in the source. -/
def computeVelocityCommands (toLocal : Pose → Pose) (maxTransformDist : ℚ)
    (robotPoseInPlanFrame : Option Pose) (footprintCost : ℚ)
    (controlFrequency : ℚ) (s : State) (position : Pose) (speed : Twist) :
    Except (PlannerError × State) (OptimizerRequest × State) :=
  match transformGlobalPlan toLocal maxTransformDist robotPoseInPlanFrame s with
  | .error e => .error e
  | .ok (transformed_plan, s1) =>
    let lookahead_dist := getLookAheadDistance s1 speed
    let carrot_pose := (getLookAheadPoint lookahead_dist transformed_plan).getD ⟨0, 0, 0⟩
    let check_pose_up := (getLookAheadPoint lookahead_dist transformed_plan).getD ⟨0, 0, 0⟩
    let s2 : State :=
      { s1 with slow_down := updateSlowDown carrot_pose.yaw check_pose_up.yaw footprintCost }
    if footprintCost = 255 then .error (.collisionDetected, s2)
    else
      .ok ({ current_vel := speed, carrot_pose := carrot_pose,
             goal_pose := s2.goal_pose, current_pose := position,
             switch_opt := s2.closer_to_goal,
             control_interval := 1 / controlFrequency }, s2)

/-- The member state at the end of a tick, whether it returned a command or
threw (member writes persist across the throw). -/
def tickEndState (r : Except (PlannerError × State) (OptimizerRequest × State)) : State :=
  match r with
  | .ok (_, s) => s
  | .error (_, s) => s

/-- `NeoMpcPlanner::setPlan` (lines 274-281).  Indexing `poses[size - 1]`
on an empty plan is out of bounds; the empty case is modelled by `none`. -/
def setPlan (s : State) (plan : List Pose) : Option State :=
  match plan.getLast? with
  | none => none
  | some g =>
    let s1 : State := { s with global_plan := plan }
    let s2 : State := if s1.goal_pose ≠ g then { s1 with slow_down := true } else s1
    some { s2 with goal_pose := g }

/-- An `rclcpp::Parameter` as seen by the reconfiguration callback: its name
and either a double value or some other type. -/
inductive ParamValue where
  | double (v : ℚ)
  | other
deriving DecidableEq, Repr

/-- A named parameter of a reconfiguration batch. -/
structure Param where
  name : String
  value : ParamValue
deriving DecidableEq, Repr

/-- `rcl_interfaces::msg::SetParametersResult`: the `reason` string defaults
to empty and is only set on the failure path. -/
structure SetParametersResult where
  successful : Bool
  reason : String
deriving DecidableEq, Repr

/-- The warning / failure reason emitted by the callback's try-lock path. -/
def lockFailMsg : String :=
  "Unable to dynamically change Parameters while the controller is currently running"

/-- The parameter name under which `configure` (lines 311-316) declares each
lookahead parameter: plugin name, a dot, then the suffix. -/
def declaredParamName (plugin_name suffix : String) : String :=
  plugin_name ++ "." ++ suffix

/-- `NeoMpcPlanner::dynamicParametersCallback` (lines 336-376).  The body
runs under a `lock_guard` on `mutex_` acquired at entry, so the
`mutex_.try_lock()` inside the loop is always invoked by the thread that
already owns `mutex_`: undefined behaviour for `std::mutex`, and `false`
(EBUSY) on the glibc/pthreads platform this ROS 2 Humble stack targets.
Every actual execution therefore has `tryLockAcquired = false`; the
parameter keeps the dead update branch visible in the model.  Parameters
whose name contains a dot (`name.find('.') != npos`, here decided on the
character list of the name) are skipped before the try-lock; a non-dotted
parameter that survives a successful try-lock is matched against
`plugin_name_ + "lookahead_dist_min"` etc. — with no dot, unlike the names
declared by `configure`. -/
def dynamicParametersCallback (plugin_name : String) (tryLockAcquired : Bool) :
    List Param → State → State × SetParametersResult
  | [], s => (s, { successful := true, reason := "" })
  | p :: ps, s =>
    if p.name.data.contains '.' then
      dynamicParametersCallback plugin_name tryLockAcquired ps s
    else if !tryLockAcquired then
      (s, { successful := false, reason := lockFailMsg })
    else
      let s1 : State :=
        match p.value with
        | .double v =>
          if p.name = plugin_name ++ "lookahead_dist_min" then
            { s with lookahead_dist_min := v }
          else if p.name = plugin_name ++ "lookahead_dist_max" then
            { s with lookahead_dist_max := v }
          else if p.name = plugin_name ++ "lookahead_dist_close_to_goal" then
            { s with lookahead_dist_close_to_goal := v }
          else s
        | .other => s
      dynamicParametersCallback plugin_name tryLockAcquired ps s1

/-- C2: starting a tick in the SLOWED regime, a first carrot heading
deviation of 0.5 rad, a re-probed carrot heading deviation of 1.2 rad and a
footprint cost above the high-cost threshold leave the regime SLOWED at the
end of the regime update: the tentative NORMAL transition taken in the
`< 1.0` branch is overridden back to SLOWED.  The regime-update block of
`computeVelocityCommands` writes but never reads `slow_down_`, so the
update is a function of the two probed headings and the cost alone, and the
starting regime (SLOWED) does not alter the outcome. -/
theorem updateSlowDown_hysteresis_override (footprintCost : ℚ)
    (hc : footprintCost > 200) :
    updateSlowDown (1 / 2) (6 / 5) footprintCost = true := by
  have h1 : |(1 / 2 : ℚ)| < 1 := by rw [abs_of_pos] <;> norm_num
  have h2 : (1 : ℚ) < |(6 / 5 : ℚ)| := by rw [abs_of_pos] <;> norm_num
  unfold updateSlowDown
  rw [if_pos h1, if_pos ⟨h2, hc⟩]

/-- Witness for C2 at footprint cost 201. -/
theorem updateSlowDown_hysteresis_override_witness :
    (200 : ℚ) < 201 ∧ updateSlowDown (1 / 2) (6 / 5) 201 = true :=
  ⟨by norm_num, updateSlowDown_hysteresis_override 201 (by norm_num)⟩

/-- C4: for every non-empty local path and every lookahead distance,
`getLookAheadPoint` returns the first pose in path order whose distance
from the robot origin is at least the lookahead distance, and when no pose
is that far it returns the last pose of the path rather than failing. -/
theorem getLookAheadPoint_first_or_last (d : ℚ) (path : List Pose)
    (h : path ≠ []) :
    ((∀ q ∈ path, normGE q d = false) →
      getLookAheadPoint d path = some (path.getLast h)) ∧
    (∀ pre p post, path = pre ++ p :: post →
      (∀ q ∈ pre, normGE q d = false) → normGE p d = true →
      getLookAheadPoint d path = some p) := by
  constructor
  · intro hall
    have hfind : path.find? (fun q => normGE q d) = none := by
      rw [List.find?_eq_none]
      intro x hx
      simp [hall x hx]
    simp [getLookAheadPoint, hfind, List.getLast?_eq_getLast_of_ne_nil h]
  · intro pre p post hsplit hpre hp
    have h1 : pre.find? (fun q => normGE q d) = none := by
      rw [List.find?_eq_none]
      intro x hx
      simp [hpre x hx]
    have h2 : (p :: post).find? (fun q => normGE q d) = some p :=
      List.find?_cons_of_pos post hp
    have hfind : path.find? (fun q => normGE q d) = some p := by
      rw [hsplit, List.find?_append, h1, h2]
      rfl
    simp [getLookAheadPoint, hfind]

/-- Witness for C4, instantiating the spec's Scenario A: path
[(0,0), (1,0), (2,0)] in the robot frame, lookahead 1 ⇒ carrot = (1,0). -/
theorem getLookAheadPoint_first_or_last_witness :
    getLookAheadPoint 1 [⟨0, 0, 0⟩, ⟨1, 0, 0⟩, ⟨2, 0, 0⟩] = some ⟨1, 0, 0⟩ :=
  (getLookAheadPoint_first_or_last 1 [⟨0, 0, 0⟩, ⟨1, 0, 0⟩, ⟨2, 0, 0⟩]
      (by simp)).2
    [⟨0, 0, 0⟩] ⟨1, 0, 0⟩ [⟨2, 0, 0⟩] rfl (by simp [normGE]) (by simp [normGE])

/-- C5: the active lookahead distance is the close-to-goal distance whenever
`closer_to_goal` holds (near-goal always wins), otherwise the max distance
when the regime is not SLOWED, otherwise the min distance; and
`closer_to_goal` as recomputed by `transformGlobalPlan` holds iff the
distance from the robot pose to the plan's final (goal) pose is at most the
close-to-goal threshold. -/
theorem getLookAheadDistance_selection :
    (∀ (s : State) (speed : Twist),
      getLookAheadDistance s speed =
        if s.closer_to_goal = true then s.lookahead_dist_close_to_goal
        else if s.slow_down = false then s.lookahead_dist_max
        else s.lookahead_dist_min) ∧
    (∀ (toLocal : Pose → Pose) (maxTransformDist : ℚ) (robot : Pose)
        (s : State) (w : List Pose) (s1 : State) (g : Pose),
      transformGlobalPlan toLocal maxTransformDist (some robot) s = .ok (w, s1) →
      s.global_plan.getLast? = some g →
      (s1.closer_to_goal = true ↔
        0 ≤ s.lookahead_dist_close_to_goal ∧
        sqDist robot g ≤ s.lookahead_dist_close_to_goal ^ 2)) := by
  constructor
  · intro s speed
    cases hc : s.closer_to_goal <;> cases hs : s.slow_down <;>
      simp [getLookAheadDistance, hc, hs]
  · intro toLocal maxTransformDist robot s w s1 g h hg
    rcases hp : s.global_plan with _ | ⟨p, ps⟩
    · rw [hp] at hg
      cases hg
    · rw [transformGlobalPlan, hp] at h
      rw [hp] at hg
      rw [List.getLast?_eq_getLast_of_ne_nil (List.cons_ne_nil p ps)] at hg
      simp only at h
      split at h
      · cases h
      · rw [Except.ok.injEq, Prod.mk.injEq] at h
        rw [← h.2, Option.some.injEq] at *
        simp [← hg, distLE]

/-- Witness for C5: in a SLOWED, near-goal state the close-to-goal distance
(3) wins, and on a one-pose plan at the origin with the robot at the origin
the recomputed `closer_to_goal` flag is equivalent to the distance bound. -/
theorem getLookAheadDistance_selection_witness :
    getLookAheadDistance
        { global_plan := [], goal_pose := ⟨0, 0, 0⟩, slow_down := true,
          closer_to_goal := true, lookahead_dist_min := 1,
          lookahead_dist_max := 2, lookahead_dist_close_to_goal := 3 }
        ⟨0, 0, 0⟩ = 3 ∧
    ((true : Bool) = true ↔
      (0 : ℚ) ≤ 3 ∧ sqDist ⟨0, 0, 0⟩ ⟨0, 0, 0⟩ ≤ 3 ^ 2) := by
  constructor
  · have h := getLookAheadDistance_selection.1
      { global_plan := [], goal_pose := ⟨0, 0, 0⟩, slow_down := true,
        closer_to_goal := true, lookahead_dist_min := 1,
        lookahead_dist_max := 2, lookahead_dist_close_to_goal := 3 }
      ⟨0, 0, 0⟩
    simpa using h
  · exact getLookAheadDistance_selection.2 id 10 ⟨0, 0, 0⟩
      { global_plan := [⟨0, 0, 0⟩], goal_pose := ⟨0, 0, 0⟩, slow_down := false,
        closer_to_goal := false, lookahead_dist_min := 1,
        lookahead_dist_max := 2, lookahead_dist_close_to_goal := 3 }
      [⟨0, 0, 0⟩]
      { global_plan := [⟨0, 0, 0⟩], goal_pose := ⟨0, 0, 0⟩, slow_down := false,
        closer_to_goal := true, lookahead_dist_min := 1,
        lookahead_dist_max := 2, lookahead_dist_close_to_goal := 3 }
      ⟨0, 0, 0⟩
      (by simp [transformGlobalPlan, argminAux, sqDist, distLE]) rfl

/-- C6: `setPlan` with a plan whose final pose differs from the stored goal
pose forces the regime to SLOWED and updates the stored goal to the new
final pose; when the final pose equals the previous goal the regime is left
unchanged (and the goal is rewritten to the same value). -/
theorem setPlan_goal_change_forces_slowdown (s : State) (plan : List Pose)
    (g : Pose) (hg : plan.getLast? = some g) :
    ∃ s1, setPlan s plan = some s1 ∧
      s1.goal_pose = g ∧ s1.global_plan = plan ∧
      (g ≠ s.goal_pose → s1.slow_down = true) ∧
      (g = s.goal_pose → s1.slow_down = s.slow_down) := by
  by_cases hgoal : s.goal_pose = g
  · refine ⟨{ s with global_plan := plan, goal_pose := g }, ?_, rfl, rfl, ?_, ?_⟩
    · simp [setPlan, hg, hgoal]
    · intro hne
      exact absurd hgoal.symm hne
    · intro _
      rfl
  · refine ⟨{ s with global_plan := plan, goal_pose := g, slow_down := true },
      ?_, rfl, rfl, ?_, ?_⟩
    · simp [setPlan, hg, hgoal]
    · intro _
      rfl
    · intro he
      exact absurd he.symm hgoal

/-- Witness for C6: a plan ending at (5,5) replaces a goal at (0,0). -/
theorem setPlan_goal_change_forces_slowdown_witness :
    ∃ s1, setPlan
        { global_plan := [], goal_pose := ⟨0, 0, 0⟩, slow_down := false,
          closer_to_goal := false, lookahead_dist_min := 1,
          lookahead_dist_max := 2, lookahead_dist_close_to_goal := 3 }
        [⟨5, 5, 0⟩] = some s1 ∧
      s1.goal_pose = ⟨5, 5, 0⟩ ∧ s1.global_plan = [⟨5, 5, 0⟩] ∧
      ((⟨5, 5, 0⟩ : Pose) ≠ (⟨0, 0, 0⟩ : Pose) → s1.slow_down = true) ∧
      ((⟨5, 5, 0⟩ : Pose) = (⟨0, 0, 0⟩ : Pose) → s1.slow_down = false) :=
  setPlan_goal_change_forces_slowdown
    { global_plan := [], goal_pose := ⟨0, 0, 0⟩, slow_down := false,
      closer_to_goal := false, lookahead_dist_min := 1,
      lookahead_dist_max := 2, lookahead_dist_close_to_goal := 3 }
    [⟨5, 5, 0⟩] ⟨5, 5, 0⟩ rfl

/-- C7 (evaluation at the failing input): a batch whose single parameter
bears the name `configure` actually declares, `FollowPath.lookahead_dist_min`,
makes the callback report SUCCESS with no value changed — never the claimed
batch failure.  The name contains a dot, so the loop skips it before any
lock check; and because the callback's own entry `lock_guard` already holds
`mutex_`, a batch delivered while a tick holds the lock blocks at entry
instead of failing immediately, then runs this same dot-skip path
(`tryLockAcquired = false` is what the inner owned-mutex try-lock yields). -/
theorem dynamicParametersCallback_dotted_batch_succeeds :
    dynamicParametersCallback "FollowPath" false
        [{ name := declaredParamName "FollowPath" "lookahead_dist_min",
           value := .double 9 }]
        { global_plan := [], goal_pose := ⟨0, 0, 0⟩, slow_down := false,
          closer_to_goal := false, lookahead_dist_min := 1,
          lookahead_dist_max := 2, lookahead_dist_close_to_goal := 3 } =
      ({ global_plan := [], goal_pose := ⟨0, 0, 0⟩, slow_down := false,
         closer_to_goal := false, lookahead_dist_min := 1,
         lookahead_dist_max := 2, lookahead_dist_close_to_goal := 3 },
       { successful := true, reason := "" }) := by
  decide

/-- C8 (evaluation at the failing input): the lookahead parameters are not
runtime-mutable.  A double parameter delivered under the declared name
`FollowPath.lookahead_dist_max` is skipped by the dot filter before the
try-lock is even consulted, so — lock available (`true`) or not (`false`) —
the stored value stays 2 instead of becoming the new value 7, and success
is reported; the name comparisons in the update branch use
`plugin_name_ + "lookahead_dist_max"` without the dot of the declared name
and so can never match a declared parameter. -/
theorem dynamicParametersCallback_declared_name_ignored :
    dynamicParametersCallback "FollowPath" false
        [{ name := declaredParamName "FollowPath" "lookahead_dist_max",
           value := .double 7 }]
        { global_plan := [], goal_pose := ⟨0, 0, 0⟩, slow_down := true,
          closer_to_goal := false, lookahead_dist_min := 1,
          lookahead_dist_max := 2, lookahead_dist_close_to_goal := 3 } =
      ({ global_plan := [], goal_pose := ⟨0, 0, 0⟩, slow_down := true,
         closer_to_goal := false, lookahead_dist_min := 1,
         lookahead_dist_max := 2, lookahead_dist_close_to_goal := 3 },
       { successful := true, reason := "" }) ∧
    dynamicParametersCallback "FollowPath" true
        [{ name := declaredParamName "FollowPath" "lookahead_dist_max",
           value := .double 7 }]
        { global_plan := [], goal_pose := ⟨0, 0, 0⟩, slow_down := true,
          closer_to_goal := false, lookahead_dist_min := 1,
          lookahead_dist_max := 2, lookahead_dist_close_to_goal := 3 } =
      ({ global_plan := [], goal_pose := ⟨0, 0, 0⟩, slow_down := true,
         closer_to_goal := false, lookahead_dist_min := 1,
         lookahead_dist_max := 2, lookahead_dist_close_to_goal := 3 },
       { successful := true, reason := "" }) := by
  constructor <;> decide

/-- Helper: a list all of whose elements fail the predicate has an empty
`takeWhile`. -/
theorem takeWhile_eq_nil_of_all_false {α : Type} (p : α → Bool) (l : List α)
    (h : ∀ q ∈ l, p q = false) : l.takeWhile p = [] := by
  cases l with
  | nil => rfl
  | cons a as =>
    rw [List.takeWhile_cons, h a (List.mem_cons_self a as)]
    rfl

/-- Helper: the first element surviving `dropWhile` fails the predicate. -/
theorem dropWhile_head?_false {α : Type} (p : α → Bool) :
    ∀ (l : List α) (d : α), (l.dropWhile p).head? = some d → p d = false := by
  intro l
  induction l with
  | nil =>
    intro d hd
    cases hd
  | cons a as ih =>
    intro d hd
    rw [List.dropWhile_cons] at hd
    by_cases ha : p a = true
    · rw [if_pos ha] at hd
      exact ih d hd
    · rw [if_neg ha, List.head?_cons, Option.some.injEq] at hd
      subst hd
      simpa using ha

/-- Helper: the regime update with equal probe yaws below 1 rad yields
NORMAL — the override needs the re-probed yaw above 1, but the re-probe
returns the same pose as the first selection. -/
theorem updateSlowDown_self_low (y c : ℚ) (h : |y| < 1) :
    updateSlowDown y y c = false := by
  have hno : ¬ (|y| > 1 ∧ c > 200) := by
    rintro ⟨h1, _⟩
    exact absurd h1 (not_lt.mpr h.le)
  unfold updateSlowDown
  rw [if_pos h, if_neg hno]

/-- Helper: full characterisation of the `min_by` scan `argminAux`.  Either
no element of `l` beats the incumbent value `bv` and the incumbent index is
returned, or the first occurrence of the minimum of `l` (which beats `bv`)
is returned, offset by the index `i` of `l`'s head. -/
theorem argminAux_spec (f : Pose → ℚ) :
    ∀ (l : List Pose) (i best : Nat) (bv : ℚ),
      (argminAux f l i best bv = best ∧ ∀ q ∈ l, bv ≤ f q) ∨
      (∃ k, ∃ hk : k < l.length,
        argminAux f l i best bv = i + k ∧
        f l[k] < bv ∧
        (∀ j, ∀ hj : j < l.length, j < k → f l[k] < f l[j]) ∧
        (∀ j, ∀ hj : j < l.length, f l[k] ≤ f l[j])) := by
  intro l
  induction l with
  | nil =>
    intro i best bv
    left
    exact ⟨rfl, by simp⟩
  | cons a as ih =>
    intro i best bv
    by_cases ha : f a < bv
    · rcases ih (i + 1) i (f a) with ⟨heq, hall⟩ | ⟨k, hk, heq, hlt, hstrict, hmin⟩
      · right
        refine ⟨0, Nat.succ_pos as.length, ?_, ?_, ?_, ?_⟩
        · rw [argminAux, if_pos ha, heq]
          omega
        · simpa using ha
        · intro j hj hj0
          omega
        · intro j hj
          cases j with
          | zero => simp
          | succ m =>
            have hm : m < as.length := by
              simp only [List.length_cons] at hj
              omega
            simpa using hall as[m] (List.getElem_mem hm)
      · right
        refine ⟨k + 1, Nat.succ_lt_succ hk, ?_, ?_, ?_, ?_⟩
        · rw [argminAux, if_pos ha, heq]
          omega
        · simpa using lt_trans hlt ha
        · intro j hj hjk
          cases j with
          | zero => simpa using hlt
          | succ m =>
            have hm : m < as.length := by
              simp only [List.length_cons] at hj
              omega
            simpa using hstrict m hm (by omega)
        · intro j hj
          cases j with
          | zero => simpa using le_of_lt hlt
          | succ m =>
            have hm : m < as.length := by
              simp only [List.length_cons] at hj
              omega
            simpa using hmin m hm
    · have hba : bv ≤ f a := not_lt.mp ha
      rcases ih (i + 1) best bv with ⟨heq, hall⟩ | ⟨k, hk, heq, hlt, hstrict, hmin⟩
      · left
        refine ⟨?_, ?_⟩
        · rw [argminAux, if_neg ha, heq]
        · intro q hq
          rcases List.mem_cons.mp hq with rfl | hq2
          · exact hba
          · exact hall q hq2
      · right
        refine ⟨k + 1, Nat.succ_lt_succ hk, ?_, ?_, ?_, ?_⟩
        · rw [argminAux, if_neg ha, heq]
          omega
        · simpa using hlt
        · intro j hj hjk
          cases j with
          | zero => simpa using lt_of_lt_of_le hlt hba
          | succ m =>
            have hm : m < as.length := by
              simp only [List.length_cons] at hj
              omega
            simpa using hstrict m hm (by omega)
        · intro j hj
          cases j with
          | zero => simpa using le_of_lt (lt_of_lt_of_le hlt hba)
          | succ m =>
            have hm : m < as.length := by
              simp only [List.length_cons] at hj
              omega
            simpa using hmin m hm

/-- Helper: on a non-empty plan `p :: ps`, the `min_by` scan returns a valid
index whose element is a minimum of the whole list, strictly below every
earlier element (first-occurrence tie-breaking). -/
theorem argmin_first_min (f : Pose → ℚ) (p : Pose) (ps : List Pose) :
    ∃ hr : argminAux f ps 1 0 (f p) < (p :: ps).length,
      (∀ j, ∀ hj : j < (p :: ps).length,
        f ((p :: ps)[argminAux f ps 1 0 (f p)]) ≤ f ((p :: ps)[j])) ∧
      (∀ j, ∀ hj : j < (p :: ps).length, j < argminAux f ps 1 0 (f p) →
        f ((p :: ps)[argminAux f ps 1 0 (f p)]) < f ((p :: ps)[j])) := by
  rcases argminAux_spec f ps 1 0 (f p)
    with ⟨heq, hall⟩ | ⟨k, hk, heq, hlt, hstrict, hmin⟩
  · rw [heq]
    refine ⟨Nat.succ_pos ps.length, ?_, ?_⟩
    · intro j hj
      cases j with
      | zero => simp
      | succ m =>
        have hm : m < ps.length := by
          simp only [List.length_cons] at hj
          omega
        simpa using hall ps[m] (List.getElem_mem hm)
    · intro j hj hj0
      omega
  · have heq2 : argminAux f ps 1 0 (f p) = k + 1 := heq.trans (Nat.add_comm 1 k)
    rw [heq2]
    refine ⟨by simp only [List.length_cons]; omega, ?_, ?_⟩
    · intro j hj
      cases j with
      | zero => simpa using le_of_lt hlt
      | succ m =>
        have hm : m < ps.length := by
          simp only [List.length_cons] at hj
          omega
        simpa using hmin m hm
    · intro j hj hjk
      cases j with
      | zero => simpa using hlt
      | succ m =>
        have hm : m < ps.length := by
          simp only [List.length_cons] at hj
          omega
        simpa using hstrict m hm (by omega)

/-- C9: `transformGlobalPlan` fails with the empty-plan error exactly when
the stored plan has zero poses — and then before trimming or transforming
anything, the state being returned unchanged; a successful call never
returns an empty window; and for a non-empty plan all of whose poses lie
farther than `max_transform_dist` from the robot, it fails with the
empty-window error (the spec's Scenario B). -/
theorem transformGlobalPlan_error_spec
    (toLocal : Pose → Pose) (maxTransformDist : ℚ)
    (robotPoseInPlanFrame : Option Pose) (robot : Pose) (s : State) :
    (s.global_plan = [] →
      transformGlobalPlan toLocal maxTransformDist robotPoseInPlanFrame s =
        .error (.emptyPlan, s)) ∧
    ((∃ s2, transformGlobalPlan toLocal maxTransformDist robotPoseInPlanFrame
        s = .error (.emptyPlan, s2)) → s.global_plan = []) ∧
    (∀ w s2, transformGlobalPlan toLocal maxTransformDist robotPoseInPlanFrame
        s = .ok (w, s2) → w ≠ []) ∧
    (s.global_plan ≠ [] →
      (∀ q ∈ s.global_plan, distLE robot q maxTransformDist = false) →
      ∃ s2, transformGlobalPlan toLocal maxTransformDist (some robot) s =
        .error (.emptyWindow, s2)) := by
  refine ⟨?_, ?_, ?_, ?_⟩
  · intro hp
    rw [transformGlobalPlan, hp]
  · rintro ⟨s2, h⟩
    rcases hp : s.global_plan with _ | ⟨p, ps⟩
    · rfl
    · exfalso
      rw [transformGlobalPlan, hp] at h
      rcases robotPoseInPlanFrame with _ | robot2
      · simp at h
      · dsimp only at h
        split at h
        · simp at h
        · simp at h
  · intro w s2 h
    rcases hp : s.global_plan with _ | ⟨p, ps⟩
    · rw [transformGlobalPlan, hp] at h
      exact Except.noConfusion h
    · rw [transformGlobalPlan, hp] at h
      rcases robotPoseInPlanFrame with _ | robot2
      · simp at h
      · dsimp only at h
        split at h
        · exact Except.noConfusion h
        · rename_i hcond
          rw [Except.ok.injEq, Prod.mk.injEq] at h
          intro hwnil
          exact hcond (by rw [h.1, hwnil]; rfl)
  · intro hne hall
    rcases hp : s.global_plan with _ | ⟨p, ps⟩
    · exact absurd hp hne
    · rw [hp] at hall
      rw [transformGlobalPlan, hp]
      dsimp only
      have hwin : ((p :: ps).drop
            (argminAux (sqDist robot) ps 1 0 (sqDist robot p))).takeWhile
          (fun q => distLE robot q maxTransformDist) = [] := by
        apply takeWhile_eq_nil_of_all_false
        intro q hq
        exact hall q (List.drop_subset _ _ hq)
      rw [hwin]
      exact ⟨_, rfl⟩

/-- Witness for C9: the empty plan errors with the empty-plan kind and an
unchanged state, and a one-pose plan at (5,5) with the robot at the origin
and `max_transform_dist` 1 errors with the empty-window kind. -/
theorem transformGlobalPlan_error_spec_witness :
    (transformGlobalPlan id 10 (some ⟨0, 0, 0⟩)
        { global_plan := [], goal_pose := ⟨0, 0, 0⟩, slow_down := false,
          closer_to_goal := false, lookahead_dist_min := 1,
          lookahead_dist_max := 2, lookahead_dist_close_to_goal := 3 } =
      .error (.emptyPlan,
        { global_plan := [], goal_pose := ⟨0, 0, 0⟩, slow_down := false,
          closer_to_goal := false, lookahead_dist_min := 1,
          lookahead_dist_max := 2, lookahead_dist_close_to_goal := 3 })) ∧
    ∃ s2, transformGlobalPlan id 1 (some ⟨0, 0, 0⟩)
        { global_plan := [⟨5, 5, 0⟩], goal_pose := ⟨5, 5, 0⟩,
          slow_down := false, closer_to_goal := false,
          lookahead_dist_min := 1, lookahead_dist_max := 2,
          lookahead_dist_close_to_goal := 3 } =
      .error (.emptyWindow, s2) :=
  ⟨(transformGlobalPlan_error_spec id 10 (some ⟨0, 0, 0⟩) ⟨0, 0, 0⟩
      { global_plan := [], goal_pose := ⟨0, 0, 0⟩, slow_down := false,
        closer_to_goal := false, lookahead_dist_min := 1,
        lookahead_dist_max := 2, lookahead_dist_close_to_goal := 3 }).1 rfl,
   (transformGlobalPlan_error_spec id 1 (some ⟨0, 0, 0⟩) ⟨0, 0, 0⟩
      { global_plan := [⟨5, 5, 0⟩], goal_pose := ⟨5, 5, 0⟩,
        slow_down := false, closer_to_goal := false,
        lookahead_dist_min := 1, lookahead_dist_max := 2,
        lookahead_dist_close_to_goal := 3 }).2.2.2 (by simp)
     (by norm_num [distLE, sqDist])⟩

/-- C3: a successful `transformGlobalPlan` returns the reprojection of a
contiguous run of the pre-trim plan, in original order, starting at the
plan pose of minimum Euclidean distance to the robot (ties broken by first
occurrence: every pose before the trim point is strictly farther) and
ending before the first pose whose distance to the robot exceeds
`max_transform_dist`; afterwards the stored plan starts at that closest
pose, everything before it permanently erased. -/
theorem transformGlobalPlan_window_spec
    (toLocal : Pose → Pose) (maxTransformDist : ℚ) (robot : Pose)
    (s : State) (w : List Pose) (s1 : State)
    (h : transformGlobalPlan toLocal maxTransformDist (some robot) s =
      .ok (w, s1)) :
    ∃ pre closest rest,
      s.global_plan = pre ++ closest :: rest ∧
      (∀ q ∈ s.global_plan, sqDist robot closest ≤ sqDist robot q) ∧
      (∀ q ∈ pre, sqDist robot closest < sqDist robot q) ∧
      s1.global_plan = closest :: rest ∧
      ∃ kept dropped,
        closest :: rest = kept ++ dropped ∧
        w = kept.map toLocal ∧
        (∀ q ∈ kept, distLE robot q maxTransformDist = true) ∧
        ∀ d ∈ dropped.head?, distLE robot d maxTransformDist = false := by
  rcases hp : s.global_plan with _ | ⟨p, ps⟩
  · rw [transformGlobalPlan, hp] at h
    exact Except.noConfusion h
  · rw [transformGlobalPlan, hp] at h
    dsimp only at h
    rcases argmin_first_min (sqDist robot) p ps with ⟨hrlt, hminAll, hstrictBefore⟩
    split at h
    · exact Except.noConfusion h
    · rw [Except.ok.injEq, Prod.mk.injEq] at h
      obtain ⟨hw, hs1⟩ := h
      have hdropcons : (p :: ps).drop (argminAux (sqDist robot) ps 1 0
            (sqDist robot p)) =
          (p :: ps)[argminAux (sqDist robot) ps 1 0 (sqDist robot p)] ::
            (p :: ps).drop (argminAux (sqDist robot) ps 1 0 (sqDist robot p) + 1) :=
        List.drop_eq_getElem_cons hrlt
      refine ⟨(p :: ps).take (argminAux (sqDist robot) ps 1 0 (sqDist robot p)),
        (p :: ps)[argminAux (sqDist robot) ps 1 0 (sqDist robot p)],
        (p :: ps).drop (argminAux (sqDist robot) ps 1 0 (sqDist robot p) + 1),
        ?_, ?_, ?_, ?_, ?_⟩
      · rw [← hdropcons]
        exact (List.take_append_drop _ (p :: ps)).symm
      · intro q hq
        rcases List.mem_iff_getElem.mp hq with ⟨j, hj, hqe⟩
        rw [← hqe]
        exact hminAll j hj
      · intro q hq
        rcases List.mem_iff_getElem.mp hq with ⟨j, hj, hqe⟩
        have hjm : j < min (argminAux (sqDist robot) ps 1 0 (sqDist robot p))
            (p :: ps).length := by
          simpa only [List.length_take] using hj
        have hjlen : j < (p :: ps).length := by omega
        have hget : ((p :: ps).take (argminAux (sqDist robot) ps 1 0
            (sqDist robot p)))[j] = (p :: ps)[j] := List.getElem_take ..
        rw [← hqe, hget]
        exact hstrictBefore j hjlen (by omega)
      · rw [← hs1]
        exact hdropcons
      · refine ⟨((p :: ps).drop (argminAux (sqDist robot) ps 1 0
            (sqDist robot p))).takeWhile
            (fun q => distLE robot q maxTransformDist),
          ((p :: ps).drop (argminAux (sqDist robot) ps 1 0
            (sqDist robot p))).dropWhile
            (fun q => distLE robot q maxTransformDist), ?_, ?_, ?_, ?_⟩
        · rw [← hdropcons]
          exact (List.takeWhile_append_dropWhile _ _).symm
        · exact hw.symm
        · intro q hq
          simpa using List.mem_takeWhile_imp hq
        · intro d hd
          exact dropWhile_head?_false _ _ d hd

/-- Witness for C3: plan [(0,0), (1,0), (2,0)], robot at (1,0),
`max_transform_dist` 1: the trim point is the middle pose (index 1, distance
0), the window keeps both remaining poses, and the stored plan drops the
consumed first pose. -/
theorem transformGlobalPlan_window_spec_witness :
    ∃ pre closest rest,
      ([⟨0, 0, 0⟩, ⟨1, 0, 0⟩, ⟨2, 0, 0⟩] : List Pose) =
        pre ++ closest :: rest ∧
      (∀ q ∈ ([⟨0, 0, 0⟩, ⟨1, 0, 0⟩, ⟨2, 0, 0⟩] : List Pose),
        sqDist ⟨1, 0, 0⟩ closest ≤ sqDist ⟨1, 0, 0⟩ q) ∧
      (∀ q ∈ pre, sqDist ⟨1, 0, 0⟩ closest < sqDist ⟨1, 0, 0⟩ q) ∧
      ([⟨1, 0, 0⟩, ⟨2, 0, 0⟩] : List Pose) = closest :: rest ∧
      ∃ kept dropped,
        closest :: rest = kept ++ dropped ∧
        ([⟨1, 0, 0⟩, ⟨2, 0, 0⟩] : List Pose) = kept.map id ∧
        (∀ q ∈ kept, distLE ⟨1, 0, 0⟩ q 1 = true) ∧
        ∀ d ∈ dropped.head?, distLE ⟨1, 0, 0⟩ d 1 = false :=
  transformGlobalPlan_window_spec id 1 ⟨1, 0, 0⟩
    { global_plan := [⟨0, 0, 0⟩, ⟨1, 0, 0⟩, ⟨2, 0, 0⟩],
      goal_pose := ⟨2, 0, 0⟩, slow_down := false, closer_to_goal := false,
      lookahead_dist_min := 1, lookahead_dist_max := 2,
      lookahead_dist_close_to_goal := 1 }
    [⟨1, 0, 0⟩, ⟨2, 0, 0⟩]
    { global_plan := [⟨1, 0, 0⟩, ⟨2, 0, 0⟩], goal_pose := ⟨2, 0, 0⟩,
      slow_down := false, closer_to_goal := true, lookahead_dist_min := 1,
      lookahead_dist_max := 2, lookahead_dist_close_to_goal := 1 }
    (by norm_num [transformGlobalPlan, argminAux, sqDist, distLE])

/-- C1: for every tick that reaches the footprint-cost query (the plan
window computation succeeded) and in which the returned cost equals the
collision sentinel 255, `computeVelocityCommands` fails with the
collision-detected error and never returns an optimizer request / velocity
command: the throw at line 234 precedes the request construction and
dispatch at lines 240-250. -/
theorem computeVelocityCommands_collision_aborts
    (toLocal : Pose → Pose) (maxTransformDist : ℚ)
    (robotPoseInPlanFrame : Option Pose) (controlFrequency : ℚ)
    (s : State) (position : Pose) (speed : Twist)
    (w : List Pose) (s1 : State)
    (h : transformGlobalPlan toLocal maxTransformDist robotPoseInPlanFrame s =
      .ok (w, s1)) :
    (∃ s2, computeVelocityCommands toLocal maxTransformDist robotPoseInPlanFrame
        255 controlFrequency s position speed =
      .error (.collisionDetected, s2)) ∧
    ∀ req s3, computeVelocityCommands toLocal maxTransformDist
        robotPoseInPlanFrame 255 controlFrequency s position speed ≠
      .ok (req, s3) := by
  have hrun : computeVelocityCommands toLocal maxTransformDist
      robotPoseInPlanFrame 255 controlFrequency s position speed =
      .error (.collisionDetected,
        { s1 with
          slow_down :=
            updateSlowDown
              ((getLookAheadPoint (getLookAheadDistance s1 speed) w).getD ⟨0, 0, 0⟩).yaw
              ((getLookAheadPoint (getLookAheadDistance s1 speed) w).getD ⟨0, 0, 0⟩).yaw
              255 }) := by
    rw [computeVelocityCommands, h]
    dsimp only
    rw [if_pos rfl]
  refine ⟨⟨_, hrun⟩, ?_⟩
  intro req s3 hcon
  rw [hrun] at hcon
  exact Except.noConfusion hcon

/-- Witness for C1: a one-pose plan at the origin, robot at the origin,
footprint cost 255 ⇒ the tick errors with the collision kind and sends
nothing. -/
theorem computeVelocityCommands_collision_aborts_witness :
    (∃ s2, computeVelocityCommands id 10 (some ⟨0, 0, 0⟩) 255 20
        { global_plan := [⟨0, 0, 0⟩], goal_pose := ⟨0, 0, 0⟩,
          slow_down := false, closer_to_goal := false,
          lookahead_dist_min := 1, lookahead_dist_max := 2,
          lookahead_dist_close_to_goal := 3 } ⟨0, 0, 0⟩ ⟨0, 0, 0⟩ =
      .error (.collisionDetected, s2)) ∧
    ∀ req s3, computeVelocityCommands id 10 (some ⟨0, 0, 0⟩) 255 20
        { global_plan := [⟨0, 0, 0⟩], goal_pose := ⟨0, 0, 0⟩,
          slow_down := false, closer_to_goal := false,
          lookahead_dist_min := 1, lookahead_dist_max := 2,
          lookahead_dist_close_to_goal := 3 } ⟨0, 0, 0⟩ ⟨0, 0, 0⟩ ≠
      .ok (req, s3) :=
  computeVelocityCommands_collision_aborts id 10 (some ⟨0, 0, 0⟩) 20
    { global_plan := [⟨0, 0, 0⟩], goal_pose := ⟨0, 0, 0⟩,
      slow_down := false, closer_to_goal := false,
      lookahead_dist_min := 1, lookahead_dist_max := 2,
      lookahead_dist_close_to_goal := 3 } ⟨0, 0, 0⟩ ⟨0, 0, 0⟩
    [⟨0, 0, 0⟩]
    { global_plan := [⟨0, 0, 0⟩], goal_pose := ⟨0, 0, 0⟩,
      slow_down := false, closer_to_goal := true,
      lookahead_dist_min := 1, lookahead_dist_max := 2,
      lookahead_dist_close_to_goal := 3 }
    (by simp [transformGlobalPlan, argminAux, sqDist, distLE])

/-- C10: the hysteresis re-probe calls `getLookAheadPoint` with exactly the
same lookahead distance and transformed plan as the first carrot selection,
and that function is pure and deterministic, so the re-probed pose always
equals the first carrot pose; hence whenever the first carrot's absolute
heading deviation is below 1 rad the override condition (re-probed
deviation above 1) is false and the tick ends with the regime NORMAL — the
SLOWED override inside the `< 1.0` branch is unreachable. -/
theorem computeVelocityCommands_low_heading_normal
    (toLocal : Pose → Pose) (maxTransformDist : ℚ)
    (robotPoseInPlanFrame : Option Pose) (footprintCost controlFrequency : ℚ)
    (s : State) (position : Pose) (speed : Twist) (w : List Pose) (s1 : State)
    (h : transformGlobalPlan toLocal maxTransformDist robotPoseInPlanFrame s =
      .ok (w, s1))
    (hyaw : |((getLookAheadPoint (getLookAheadDistance s1 speed) w).getD
        ⟨0, 0, 0⟩).yaw| < 1) :
    (tickEndState (computeVelocityCommands toLocal maxTransformDist
        robotPoseInPlanFrame footprintCost controlFrequency s position
        speed)).slow_down = false := by
  rw [computeVelocityCommands, h]
  dsimp only
  by_cases hfc : footprintCost = 255
  · rw [if_pos hfc]
    simp [tickEndState, updateSlowDown_self_low _ _ hyaw]
  · rw [if_neg hfc]
    simp [tickEndState, updateSlowDown_self_low _ _ hyaw]

/-- Witness for C10: one-pose plan at the origin, carrot yaw 0 ⇒ the tick
ends in NORMAL. -/
theorem computeVelocityCommands_low_heading_normal_witness :
    (tickEndState (computeVelocityCommands id 10 (some ⟨0, 0, 0⟩) 0 20
        { global_plan := [⟨0, 0, 0⟩], goal_pose := ⟨0, 0, 0⟩,
          slow_down := true, closer_to_goal := false,
          lookahead_dist_min := 1, lookahead_dist_max := 2,
          lookahead_dist_close_to_goal := 3 } ⟨0, 0, 0⟩
        ⟨0, 0, 0⟩)).slow_down = false :=
  computeVelocityCommands_low_heading_normal id 10 (some ⟨0, 0, 0⟩) 0 20
    { global_plan := [⟨0, 0, 0⟩], goal_pose := ⟨0, 0, 0⟩,
      slow_down := true, closer_to_goal := false,
      lookahead_dist_min := 1, lookahead_dist_max := 2,
      lookahead_dist_close_to_goal := 3 } ⟨0, 0, 0⟩ ⟨0, 0, 0⟩
    [⟨0, 0, 0⟩]
    { global_plan := [⟨0, 0, 0⟩], goal_pose := ⟨0, 0, 0⟩,
      slow_down := true, closer_to_goal := true,
      lookahead_dist_min := 1, lookahead_dist_max := 2,
      lookahead_dist_close_to_goal := 3 }
    (by simp [transformGlobalPlan, argminAux, sqDist, distLE])
    (by simp [getLookAheadPoint, getLookAheadDistance, normGE])

end NeoMpc
